import Mathlib

/-!
Verification development for the multi-state life table (MSLT) core of the
COVID_PMSLT repository.  The definitions below are shallow embeddings, over
the real numbers, of the rate-pipeline and disease-transition engine found in
`src/mslt/components/disease.py`, `src/mslt/components/population.py`,
`src/mslt/components/stage.py` and
`src/mslt/components/magic_wand_components.py`.
-/

namespace MSLT

noncomputable section

/-- Per-(disease, cohort) compartment state of one chronic disease, for the
BAU and intervention tracks, with the previous-step copies
(the eight columns `<name>_S`, `<name>_C`, `<name>_S_previous`, ... created in
`Disease.setup` / `Disease.on_initialize_simulants`, disease.py). -/
structure ChronicState where
  S : ℝ
  C : ℝ
  S_previous : ℝ
  C_previous : ℝ
  S_intervention : ℝ
  C_intervention : ℝ
  S_intervention_previous : ℝ
  C_intervention_previous : ℝ

/-- The discriminant `q = sqrt(i**2 + r**2 + f**2 + 2*i*r + 2*f*r - 2*i*f)`
computed in `Disease.on_time_step_prepare` (disease.py line 318). -/
def qval (i r f : ℝ) : ℝ :=
  Real.sqrt (i ^ 2 + r ^ 2 + f ^ 2 + 2 * i * r + 2 * f * r - 2 * i * f)

/-- The convenience term `l = i + f_plus_r` where `f_plus_r = f + r`
(disease.py lines 313, 316). -/
def lval (i r f : ℝ) : ℝ := i + (f + r)

/-- `w = exp(-(l + q) / 2)` (disease.py line 320). -/
def wval (i r f : ℝ) : ℝ := Real.exp (-(lval i r f + qval i r f) / 2)

/-- `v = exp(-(l - q) / 2)` (disease.py line 322). -/
def vval (i r f : ℝ) : ℝ := Real.exp (-(lval i r f - qval i r f) / 2)

/-- Numerator `num_S` of the general closed-form susceptible update
(disease.py lines 337-339). -/
def numS (S C i r f : ℝ) : ℝ :=
  2 * (vval i r f - wval i r f) * (S * (f + r) + C * r)
    + S * (vval i r f * (qval i r f - lval i r f)
           + wval i r f * (qval i r f + lval i r f))

/-- Numerator `num_C` of the general closed-form case update
(disease.py lines 346-349). -/
def numC (S C i r f : ℝ) : ℝ :=
  -((vval i r f - wval i r f)
      * (2 * ((f + r) * (S + C) - lval i r f * S) - lval i r f * C)
    - (vval i r f + wval i r f) * qval i r f * C)

/-- One application of the general closed-form chronic-disease update for one
track (disease.py lines 303-355): entries whose discriminant `q` is zero are
left at their incoming values (the numpy code only assigns where
`q != 0`, so the division by `2 * q` is never performed there); entries with
`q ≠ 0` receive `num_S / (2 q)` and `num_C / (2 q)`. -/
def diseaseStep (S C i r f : ℝ) : ℝ × ℝ :=
  if qval i r f = 0 then (S, C)
  else (numS S C i r f / (2 * qval i r f), numC S C i r f / (2 * qval i r f))

/-- The zero-remission fast path (disease.py lines 286-289):
`new_S = S * exp(-i)`, `new_C = C * exp(-f) + S - new_S`. -/
def fastStep (S C i f : ℝ) : ℝ × ℝ :=
  (S * Real.exp (-i),
   C * Real.exp (-f) + S - S * Real.exp (-i))

/-- The `time_step__prepare` handler of the chronic `Disease` component
(disease.py lines 256-367) for a single cohort: it returns immediately while
the clock year still equals the start year; otherwise it solves one step for
both tracks (fast path when the remission rate is zero and the
`simplified_no_remission_equations` flag is set, the general closed form
otherwise) and writes the four new compartments plus the four previous-step
copies. -/
def Disease.on_time_step_prepare (clockYear startYear : ℤ) (simplified : Bool)
    (i_bau i_int r f : ℝ) (st : ChronicState) : ChronicState :=
  if clockYear = startYear then st
  else if r = 0 ∧ simplified = true then
    { S := (fastStep st.S st.C i_bau f).1,
      C := (fastStep st.S st.C i_bau f).2,
      S_previous := st.S,
      C_previous := st.C,
      S_intervention := (fastStep st.S_intervention st.C_intervention i_int f).1,
      C_intervention := (fastStep st.S_intervention st.C_intervention i_int f).2,
      S_intervention_previous := st.S_intervention,
      C_intervention_previous := st.C_intervention }
  else
    { S := (diseaseStep st.S st.C i_bau r f).1,
      C := (diseaseStep st.S st.C i_bau r f).2,
      S_previous := st.S,
      C_previous := st.C,
      S_intervention := (diseaseStep st.S_intervention st.C_intervention i_int r f).1,
      C_intervention := (diseaseStep st.S_intervention st.C_intervention i_int r f).2,
      S_intervention_previous := st.S_intervention,
      C_intervention_previous := st.C_intervention }

/-- The chronic disease's `mortality_rate` pipeline modifier
(`Disease.mortality_adjustment`, disease.py lines 369-392). -/
def Disease.mortality_adjustment (st : ChronicState) (mortality_rate : ℝ) : ℝ :=
  let D := 1000 - st.S - st.C
  let D_prev := 1000 - st.S_previous - st.C_previous
  let D_int := 1000 - st.S_intervention - st.C_intervention
  let D_int_prev := 1000 - st.S_intervention_previous - st.C_intervention_previous
  let mortality_risk := (D - D_prev) / (st.S_previous + st.C_previous)
  let mortality_risk_int :=
    (D_int - D_int_prev) / (st.S_intervention_previous + st.C_intervention_previous)
  mortality_rate + Real.log ((1 - mortality_risk) / (1 - mortality_risk_int))

/-- The chronic disease's `yld_rate` pipeline modifier
(`Disease.disability_adjustment`, disease.py lines 394-415);
`disabilityRate` is the value of the disease's morbidity lookup table at the
cohort's index. -/
def Disease.disability_adjustment (disabilityRate : ℝ) (st : ChronicState)
    (yld_rate : ℝ) : ℝ :=
  let prevalence_rate :=
    (st.C + st.C_previous) / (st.S + st.C + st.S_previous + st.C_previous)
  let prevalence_rate_int :=
    (st.C_intervention + st.C_intervention_previous)
      / (st.S_intervention + st.C_intervention
         + st.S_intervention_previous + st.C_intervention_previous)
  yld_rate + disabilityRate * (prevalence_rate_int - prevalence_rate)

/-- The cohort attributes touched by `BasePopulation.on_time_step_prepare`
(population.py lines 89-96). -/
structure PopCohort where
  age : ℝ
  tracked : Bool

/-- The `time_step__prepare` handler of `BasePopulation`
(population.py lines 89-96) for a single cohort.  The population view is
queried with `tracked == True`, so untracked cohorts are left untouched.
`past_start` is true when the clock date is strictly after the simulation's
start date (the first time step fires with the clock at the start date, so the
age is not incremented then).  Cohorts whose age strictly exceeds `max_age`
have their `tracked` flag cleared. -/
def BasePopulation.on_time_step_prepare (max_age years_per_timestep : ℝ)
    (past_start : Bool) (c : PopCohort) : PopCohort :=
  if c.tracked = true then
    let age := if past_start then c.age + years_per_timestep else c.age
    { age := age, tracked := if max_age < age then false else true }
  else c

/-- The cohort columns read and written by `Mortality.on_time_step`
(population.py lines 125-153). -/
structure MortalityState where
  population : ℝ
  bau_population : ℝ
  acmr : ℝ
  bau_acmr : ℝ
  pr_death : ℝ
  bau_pr_death : ℝ
  deaths : ℝ
  bau_deaths : ℝ
  person_years : ℝ
  bau_person_years : ℝ

/-- The `time_step` handler of `Mortality` (population.py lines 131-153) for
one cohort.  `mortality_rate` and `bau_mortality_rate` are this step's values
of the two pipelines; `Mortality.setup` (line 122) sets
`years_per_timestep = step_size / 365`. -/
def Mortality.on_time_step (step_size mortality_rate bau_mortality_rate : ℝ)
    (pop : MortalityState) : MortalityState :=
  let years_per_timestep := step_size / 365
  let acmr := mortality_rate
  let probability_of_death := 1 - Real.exp (-acmr)
  let deaths := pop.population * probability_of_death
  let population := pop.population * (1 - probability_of_death)
  let bau_acmr := bau_mortality_rate
  let bau_probability_of_death := 1 - Real.exp (-bau_acmr)
  let bau_deaths := pop.bau_population * bau_probability_of_death
  let bau_population := pop.bau_population * (1 - bau_probability_of_death)
  { population := population,
    bau_population := bau_population,
    acmr := acmr,
    bau_acmr := bau_acmr,
    pr_death := probability_of_death,
    bau_pr_death := bau_probability_of_death,
    deaths := deaths,
    bau_deaths := bau_deaths,
    person_years := (population + 0.5 * deaths) * years_per_timestep,
    bau_person_years := (bau_population + 0.5 * bau_deaths) * years_per_timestep }

/-- `ModifyAcuteDiseaseYLD.setup` (magic_wand_components.py lines 70-80):
with a negative configured `yld_scale` it raises before registering anything;
otherwise it registers the `disability_adjustment` modifier
`rates * self.scale`. -/
def ModifyAcuteDiseaseYLD.setup (yld_scale : ℝ) : Except String (ℝ → ℝ) :=
  if yld_scale < 0 then Except.error ("Invalid YLD scale")
  else Except.ok (fun rates => rates * yld_scale)

/-- `ModifyAcuteDiseaseMortality.setup` (magic_wand_components.py lines
92-102): with a negative configured `mortality_scale` it raises before
registering anything; otherwise it registers the `mortality_adjustment`
modifier `rates * self.scale`. -/
def ModifyAcuteDiseaseMortality.setup (mortality_scale : ℝ) : Except String (ℝ → ℝ) :=
  if mortality_scale < 0 then Except.error ("Invalid mortality scale")
  else Except.ok (fun rates => rates * mortality_scale)

/-- The value of the loop variable `disease` of `LockdownAcuteDisease.setup`
(stage.py line 38) once the registration loop has finished: the last key of
the ordered `lockdown.affects.mortality` dict (modelled as the fold that
repeatedly overwrites the variable with each key in turn). -/
def lastKey (rates : List (String × ℝ)) : String :=
  rates.foldl (fun _ p => p.1) ""

/-- Python dict access `d[k]` for the ordered dicts of scale factors
(0 for a missing key; the configurations used always contain the key). -/
def dictGet : List (String × ℝ) → String → ℝ
  | [], _ => 0
  | p :: rest, k => if p.1 = k then p.2 else dictGet rest k

/-- The modifier that `LockdownAcuteDisease.setup` registers on
`<d>_intervention.excess_mortality` for each disease `d` of the ordered
`lockdown.affects.mortality` dict (`mortRates`), as it behaves at call time
(stage.py lines 38-41): the rate is multiplied by
`scale * stage + (1 - stage)` where `scale` is
`diseaseMortRates[disease]` with `disease` late-bound to the dict's last key,
so the body does not depend on `d`.  `stage` is the value of the stage lookup
table at the cohort's index. -/
def lockdownMortModifier (mortRates : List (String × ℝ)) (stage rate : ℝ) : ℝ :=
  rate * (dictGet mortRates (lastKey mortRates) * stage + (1 - stage))

/-- The modifier that `LockdownAcuteDisease.setup` registers on
`<d>_intervention.yld_rate` (stage.py lines 42-44); the scale is
`diseaseDisRates[disease]` with the same late-bound loop variable, which
iterates over the keys of the *mortality* dict. -/
def lockdownYldModifier (mortRates disRates : List (String × ℝ)) (stage rate : ℝ) : ℝ :=
  rate * (dictGet disRates (lastKey mortRates) * stage + (1 - stage))

/-- The per-disease modifier the spec describes for the lockdown component:
disease `d`'s own configured scale factor is interpolated by the stage
severity.  Modelled from the spec for comparison with the registered
modifiers above. -/
def lockdownSpecModifier (rates : List (String × ℝ)) (d : String) (stage rate : ℝ) : ℝ :=
  rate * (dictGet rates d * stage + (1 - stage))

/-- One cohort's full per-step state for the composed simulation used by the
BAU-idempotence property: the mortality columns, the `Disability` columns
(population.py lines 214-231) and one chronic disease's compartments. -/
structure SimState where
  mort : MortalityState
  yld_rate : ℝ
  bau_yld_rate : ℝ
  HALY : ℝ
  bau_HALY : ℝ
  chronic : ChronicState

/-- The lookup-table values consumed during one time step: the clock year seen
by the prepare handler, the base producers of the two global pipelines, the
chronic disease's incidence (both tracks), remission, excess mortality and
morbidity lookups, and an acute disease's excess-mortality and morbidity
lookups for both tracks. -/
structure StepInput where
  clockYear : ℤ
  acmr_base : ℝ
  yld_base : ℝ
  i_bau : ℝ
  i_int : ℝ
  r : ℝ
  f : ℝ
  dis : ℝ
  acute_mty_bau : ℝ
  acute_mty_int : ℝ
  acute_yld_bau : ℝ
  acute_yld_int : ℝ

/-- One full simulation time step for one cohort, composing the handlers in
the framework's order: (1) `time_step__prepare` updates the chronic
compartments; (2) the `mortality_rate` pipeline is evaluated once — its base
producer plus the chronic `mortality_adjustment` modifier plus the acute
disease's delta `int_excess_mortality - excess_mortality`
(disease.py lines 104-120), while `bau_mortality_rate` has no modifiers;
(3) `Mortality.on_time_step` updates the population columns; (4) the
`yld_rate` pipeline is evaluated (base plus chronic `disability_adjustment`
plus the acute delta, disease.py lines 122-139) and `Disability.on_time_step`
(population.py lines 219-231) writes `HALY = person_years * (1 - yld_rate)`
for both tracks. -/
def simStep (startYear : ℤ) (simplified : Bool) (step_size : ℝ)
    (st : SimState) (inp : StepInput) : SimState :=
  let ch := Disease.on_time_step_prepare inp.clockYear startYear simplified
      inp.i_bau inp.i_int inp.r inp.f st.chronic
  let mortality_rate := Disease.mortality_adjustment ch inp.acmr_base
      + (inp.acute_mty_int - inp.acute_mty_bau)
  let bau_mortality_rate := inp.acmr_base
  let mort := Mortality.on_time_step step_size mortality_rate bau_mortality_rate st.mort
  let yld := Disease.disability_adjustment inp.dis ch inp.yld_base
      + (inp.acute_yld_int - inp.acute_yld_bau)
  let bau_yld := inp.yld_base
  { mort := mort,
    yld_rate := yld,
    bau_yld_rate := bau_yld,
    HALY := mort.person_years * (1 - yld),
    bau_HALY := mort.bau_person_years * (1 - bau_yld),
    chronic := ch }

/-- A whole simulation: fold `simStep` over the per-step lookup values. -/
def simRun (startYear : ℤ) (simplified : Bool) (step_size : ℝ)
    (st : SimState) (inputs : List StepInput) : SimState :=
  inputs.foldl (simStep startYear simplified step_size) st

/-- The intervention-track compartments coincide with the BAU-track
compartments. -/
def ChronicState.tracksEqual (ch : ChronicState) : Prop :=
  ch.S_intervention = ch.S ∧ ch.C_intervention = ch.C ∧
  ch.S_intervention_previous = ch.S_previous ∧
  ch.C_intervention_previous = ch.C_previous

/-- Every non-prefixed column equals its `bau_`-prefixed counterpart. -/
def SimState.tracksEqual (st : SimState) : Prop :=
  st.mort.population = st.mort.bau_population ∧
  st.mort.acmr = st.mort.bau_acmr ∧
  st.mort.pr_death = st.mort.bau_pr_death ∧
  st.mort.deaths = st.mort.bau_deaths ∧
  st.mort.person_years = st.mort.bau_person_years ∧
  st.yld_rate = st.bau_yld_rate ∧
  st.HALY = st.bau_HALY ∧
  st.chronic.tracksEqual

/-- No intervention modifier changes anything during this step: every
intervention-track lookup value equals its BAU-track value. -/
def StepInput.noIntervention (inp : StepInput) : Prop :=
  inp.i_int = inp.i_bau ∧ inp.acute_mty_int = inp.acute_mty_bau ∧
  inp.acute_yld_int = inp.acute_yld_bau

end

/-! ### Helper lemmas -/

lemma qval_zero_remission (i f : ℝ) : qval i 0 f = |i - f| := by
  have h : i ^ 2 + (0:ℝ) ^ 2 + f ^ 2 + 2 * i * 0 + 2 * f * 0 - 2 * i * f
      = (i - f) ^ 2 := by ring
  rw [qval, h, Real.sqrt_sq_eq_abs]

lemma qval_zero_excess (i r : ℝ) : qval i r 0 = |i + r| := by
  have h : i ^ 2 + r ^ 2 + (0:ℝ) ^ 2 + 2 * i * r + 2 * r * 0 - 2 * i * 0
      = (i + r) ^ 2 := by ring
  rw [qval]
  rw [show i ^ 2 + r ^ 2 + (0:ℝ) ^ 2 + 2 * i * r + 2 * 0 * r - 2 * i * 0
      = (i + r) ^ 2 from by ring]
  exact Real.sqrt_sq_eq_abs _

lemma lval_zero_excess (i r : ℝ) : lval i r 0 = i + r := by
  rw [lval]; ring

lemma log_div_self (y : ℝ) : Real.log (y / y) = 0 := by
  rcases eq_or_ne y 0 with hy | hy
  · simp [hy]
  · rw [div_self hy, Real.log_one]

/-! ### Claim theorems -/

/-- C4: one application of the general chronic-disease closed-form update with
excess mortality `f = 0` conserves total mass: `S_new + C_new = S + C`, for
every state `(S, C)` and every incidence/remission pair `(i, r)`. -/
theorem diseaseStep_mass_conservation (S C i r : ℝ) :
    (diseaseStep S C i r 0).1 + (diseaseStep S C i r 0).2 = S + C := by
  have hq := qval_zero_excess i r
  have hl := lval_zero_excess i r
  have hkey : qval i r 0 * (vval i r 0 + wval i r 0)
      + lval i r 0 * (vval i r 0 - wval i r 0) = 2 * qval i r 0 := by
    rcases le_or_lt 0 (i + r) with h | h
    · have hq' : qval i r 0 = i + r := by rw [hq, abs_of_nonneg h]
      have hv : vval i r 0 = 1 := by
        rw [vval, hl, hq', show -((i + r) - (i + r)) / 2 = (0:ℝ) from by ring,
          Real.exp_zero]
      rw [hq', hl, hv]; ring
    · have hq' : qval i r 0 = -(i + r) := by rw [hq, abs_of_neg h]
      have hw : wval i r 0 = 1 := by
        rw [wval, hl, hq', show -((i + r) + -(i + r)) / 2 = (0:ℝ) from by ring,
          Real.exp_zero]
      rw [hq', hl, hw]; ring
  rw [diseaseStep]
  rcases eq_or_ne (qval i r 0) 0 with h0 | h0
  · rw [if_pos h0]
  · rw [if_neg h0]
    have hsum : numS S C i r 0 + numC S C i r 0
        = (S + C) * (qval i r 0 * (vval i r 0 + wval i r 0)
            + lval i r 0 * (vval i r 0 - wval i r 0)) := by
      rw [numS, numC, lval]; ring
    have h2q : (2:ℝ) * qval i r 0 ≠ 0 := by
      exact mul_ne_zero two_ne_zero h0
    show numS S C i r 0 / (2 * qval i r 0) + numC S C i r 0 / (2 * qval i r 0) = S + C
    rw [div_add_div_same, hsum, hkey, mul_div_assoc, div_self h2q, mul_one]

/-- C10: in the general chronic-disease update, an entry whose discriminant
`q` is zero is left at its prior-step `(S, C)` values and no division by the
zero denominator `2 q` is performed, while an entry with `q ≠ 0` receives
the closed-form result `(num_S / (2 q), num_C / (2 q))`; the update is total. -/
theorem diseaseStep_q_zero_total (S C i r f : ℝ) :
    (qval i r f = 0 → diseaseStep S C i r f = (S, C)) ∧
    (qval i r f ≠ 0 → diseaseStep S C i r f
      = (numS S C i r f / (2 * qval i r f), numC S C i r f / (2 * qval i r f))) := by
  constructor
  · intro h; rw [diseaseStep, if_pos h]
  · intro h; rw [diseaseStep, if_neg h]

/-- Witness for C10 at the concrete degenerate input `i = f = 1`, `r = 0`
(there `q = 0`): the update returns the state unchanged. -/
theorem diseaseStep_q_zero_total_witness :
    diseaseStep 5 7 1 0 1 = (5, 7) := by
  have hq : qval 1 0 1 = 0 := by
    rw [qval_zero_remission]; norm_num
  exact (diseaseStep_q_zero_total 5 7 1 0 1).1 hq

lemma generalS_r0 (S C i f : ℝ) (h : i ≠ f) :
    (diseaseStep S C i 0 f).1 = S * Real.exp (-i) := by
  have h0 : qval i 0 f ≠ 0 := by
    rw [qval_zero_remission]
    exact abs_ne_zero.mpr (sub_ne_zero.mpr h)
  have hl : lval i 0 f = i + f := by rw [lval]; ring
  have hsub : i - f ≠ 0 := sub_ne_zero.mpr h
  rcases lt_or_gt_of_ne h with hlt | hgt
  · have hq' : qval i 0 f = -(i - f) := by
      rw [qval_zero_remission, abs_of_neg (sub_neg.mpr hlt)]
    have hw : wval i 0 f = Real.exp (-f) := by
      rw [wval, hl, hq', show (-((i + f) + -(i - f)) / 2 : ℝ) = -f from by ring]
    have hv : vval i 0 f = Real.exp (-i) := by
      rw [vval, hl, hq', show (-((i + f) - -(i - f)) / 2 : ℝ) = -i from by ring]
    have hnum : numS S C i 0 f = S * Real.exp (-i) * (2 * -(i - f)) := by
      rw [numS, hw, hv, hq', hl]; ring
    rw [diseaseStep, if_neg h0]
    show numS S C i 0 f / (2 * qval i 0 f) = S * Real.exp (-i)
    rw [hnum, hq', mul_div_assoc, div_self (by
      exact mul_ne_zero two_ne_zero (neg_ne_zero.mpr hsub)), mul_one]
  · have hq' : qval i 0 f = i - f := by
      rw [qval_zero_remission, abs_of_pos (sub_pos.mpr hgt)]
    have hw : wval i 0 f = Real.exp (-i) := by
      rw [wval, hl, hq', show (-((i + f) + (i - f)) / 2 : ℝ) = -i from by ring]
    have hv : vval i 0 f = Real.exp (-f) := by
      rw [vval, hl, hq', show (-((i + f) - (i - f)) / 2 : ℝ) = -f from by ring]
    have hnum : numS S C i 0 f = S * Real.exp (-i) * (2 * (i - f)) := by
      rw [numS, hw, hv, hq', hl]; ring
    rw [diseaseStep, if_neg h0]
    show numS S C i 0 f / (2 * qval i 0 f) = S * Real.exp (-i)
    rw [hnum, hq', mul_div_assoc, div_self (mul_ne_zero two_ne_zero hsub), mul_one]

lemma generalC_r0_f0 (S C i : ℝ) (h : i ≠ 0) :
    (diseaseStep S C i 0 0).2 = C + S * (1 - Real.exp (-i)) := by
  have h0 : qval i 0 0 ≠ 0 := by
    rw [qval_zero_remission, show i - (0:ℝ) = i from by ring]
    exact abs_ne_zero.mpr h
  have hl : lval i 0 0 = i := by rw [lval]; ring
  rcases lt_or_gt_of_ne h with hlt | hgt
  · have hq' : qval i 0 0 = -i := by
      rw [qval_zero_remission, show i - (0:ℝ) = i from by ring, abs_of_neg hlt]
    have hw : wval i 0 0 = 1 := by
      rw [wval, hl, hq', show (-(i + -i) / 2 : ℝ) = 0 from by ring, Real.exp_zero]
    have hv : vval i 0 0 = Real.exp (-i) := by
      rw [vval, hl, hq', show (-(i - -i) / 2 : ℝ) = -i from by ring]
    have hnum : numC S C i 0 0 = (C + S * (1 - Real.exp (-i))) * (2 * -i) := by
      rw [numC, hw, hv, hq', hl]; ring
    rw [diseaseStep, if_neg h0]
    show numC S C i 0 0 / (2 * qval i 0 0) = C + S * (1 - Real.exp (-i))
    rw [hnum, hq', mul_div_assoc, div_self (mul_ne_zero two_ne_zero
      (neg_ne_zero.mpr h)), mul_one]
  · have hq' : qval i 0 0 = i := by
      rw [qval_zero_remission, show i - (0:ℝ) = i from by ring, abs_of_pos hgt]
    have hw : wval i 0 0 = Real.exp (-i) := by
      rw [wval, hl, hq', show (-(i + i) / 2 : ℝ) = -i from by ring]
    have hv : vval i 0 0 = 1 := by
      rw [vval, hl, hq', show (-(i - i) / 2 : ℝ) = 0 from by ring, Real.exp_zero]
    have hnum : numC S C i 0 0 = (C + S * (1 - Real.exp (-i))) * (2 * i) := by
      rw [numC, hw, hv, hq', hl]; ring
    rw [diseaseStep, if_neg h0]
    show numC S C i 0 0 / (2 * qval i 0 0) = C + S * (1 - Real.exp (-i))
    rw [hnum, hq', mul_div_assoc, div_self (mul_ne_zero two_ne_zero h), mul_one]

/-- C2 (counterexample): at `S = 1000, C = 0, i = f = 1, r = 0` the
discriminant `q` is zero, the general update leaves the state unchanged,
and the zero-remission fast path does not produce the same `(S_new, C_new)`. -/
theorem zero_remission_fastpath_counterexample :
    diseaseStep 1000 0 1 0 1 ≠ fastStep 1000 0 1 1 := by
  have hq : qval 1 0 1 = 0 := by
    rw [qval_zero_remission]; norm_num
  intro h
  have h2 := congrArg Prod.fst h
  rw [diseaseStep, if_pos hq, fastStep] at h2
  have h3 : Real.exp (-1 : ℝ) = 1 := by
    have h4 : (1000 : ℝ) = 1000 * Real.exp (-1) := h2
    linarith
  have h5 : (-1 : ℝ) = 0 := (Real.exp_eq_one_iff (-1)).mp h3
  norm_num at h5

/-- C2 (amended): with zero remission, the general closed-form update and the
fast-path update agree in the susceptible component whenever `i ≠ f`
(`S_new = S·exp(−i)` in both), and agree in both components when additionally
`f = 0`; at `i = f` (where `q = 0`) the general update instead leaves the
entry's `(S, C)` unchanged, and for `f ≠ 0` the case components differ in
general. -/
theorem zero_remission_agreement (S C i f : ℝ) :
    (i = f → diseaseStep S C i 0 f = (S, C)) ∧
    (i ≠ f → (diseaseStep S C i 0 f).1 = (fastStep S C i f).1) ∧
    (i ≠ f → f = 0 → diseaseStep S C i 0 f = fastStep S C i f) := by
  refine ⟨?_, ?_, ?_⟩
  · intro h
    have hq : qval i 0 f = 0 := by rw [qval_zero_remission, h]; simp
    rw [diseaseStep, if_pos hq]
  · intro h
    rw [generalS_r0 S C i f h, fastStep]
  · intro h hf
    subst hf
    have h1 : (diseaseStep S C i 0 0).1 = (fastStep S C i 0).1 :=
      generalS_r0 S C i 0 h
    have h2 : (diseaseStep S C i 0 0).2 = (fastStep S C i 0).2 := by
      rw [generalC_r0_f0 S C i h, fastStep]
      show C + S * (1 - Real.exp (-i)) = C * Real.exp (-0) + S - S * Real.exp (-i)
      rw [neg_zero, Real.exp_zero]; ring
    exact Prod.ext h1 h2

/-- Witness for C2 (amended) at `S = 3, C = 4, i = 2, f = 0`: the general
closed form and the fast path coincide. -/
theorem zero_remission_agreement_witness :
    diseaseStep 3 4 2 0 0 = fastStep 3 4 2 0 :=
  (zero_remission_agreement 3 4 2 0).2.2 (by norm_num) rfl

/-- C1: the chronic-disease mortality modifier returns the incoming
`mortality_rate` plus `ln((1 − mortality_risk) / (1 − mortality_risk_int))`
where `mortality_risk = (D − D_prev) / (S_prev + C_prev)` with
`D = 1000 − S − C`, `D_prev = 1000 − S_prev − C_prev`, and
`mortality_risk_int` is computed identically from the intervention-track
compartments (preconditions: the two previous-step compartment sums are
non-zero). -/
theorem mortality_adjustment_formula (st : ChronicState) (m : ℝ)
    (_h1 : st.S_previous + st.C_previous ≠ 0)
    (_h2 : st.S_intervention_previous + st.C_intervention_previous ≠ 0) :
    Disease.mortality_adjustment st m
      = m + Real.log
          ((1 - ((1000 - st.S - st.C) - (1000 - st.S_previous - st.C_previous))
              / (st.S_previous + st.C_previous))
           / (1 - ((1000 - st.S_intervention - st.C_intervention)
                - (1000 - st.S_intervention_previous - st.C_intervention_previous))
              / (st.S_intervention_previous + st.C_intervention_previous))) := rfl

/-- Witness for C1 at the spec's scenario state
`S = 900, C = 100, S_prev = 910, C_prev = 90` (both tracks) and incoming rate
`1/100`. -/
theorem mortality_adjustment_formula_witness :
    Disease.mortality_adjustment ⟨900, 100, 910, 90, 900, 100, 910, 90⟩ (1/100)
      = 1/100 + Real.log
          ((1 - ((1000 - 900 - 100) - (1000 - 910 - 90)) / (910 + 90))
           / (1 - ((1000 - 900 - 100) - (1000 - 910 - 90)) / (910 + 90))) :=
  mortality_adjustment_formula ⟨900, 100, 910, 90, 900, 100, 910, 90⟩ (1/100)
    (by norm_num) (by norm_num)

/-- C3 (counterexample): the person-years conversion factor is
`step_size / 365`, not `step_size / 365.25`.  With a 365-day step, zero
hazard and unit population, the code writes `person_years = 1`, while the
claimed 365.25-day-year factor would give `365 / 365.25 ≠ 1`. -/
theorem person_years_counterexample :
    (Mortality.on_time_step 365 0 0 ⟨1, 1, 0, 0, 0, 0, 0, 0, 0, 0⟩).person_years
      ≠ ((Mortality.on_time_step 365 0 0 ⟨1, 1, 0, 0, 0, 0, 0, 0, 0, 0⟩).population
          + 0.5 * (Mortality.on_time_step 365 0 0 ⟨1, 1, 0, 0, 0, 0, 0, 0, 0, 0⟩).deaths)
        * (365 / 365.25) := by
  have he : Real.exp (-(0:ℝ)) = 1 := by rw [neg_zero, Real.exp_zero]
  norm_num [Mortality.on_time_step, he]

/-- C3 (amended): at every time step, for each track, the population update
computes `probability_of_death = 1 − exp(−hazard)`,
`deaths = population × probability_of_death`,
`population' = population × (1 − probability_of_death) = population × exp(−hazard)`,
and `person_years = (population' + 0.5 × deaths) × (step_size_days / 365)`,
i.e. the person-years conversion factor uses a 365-day year
(population.py line 122). -/
theorem mortality_step_update (step_size m bm : ℝ) (pop : MortalityState) :
    (Mortality.on_time_step step_size m bm pop).acmr = m ∧
    (Mortality.on_time_step step_size m bm pop).pr_death = 1 - Real.exp (-m) ∧
    (Mortality.on_time_step step_size m bm pop).deaths
      = pop.population * (1 - Real.exp (-m)) ∧
    (Mortality.on_time_step step_size m bm pop).population
      = pop.population * Real.exp (-m) ∧
    (Mortality.on_time_step step_size m bm pop).person_years
      = ((Mortality.on_time_step step_size m bm pop).population
          + 0.5 * (Mortality.on_time_step step_size m bm pop).deaths)
        * (step_size / 365) ∧
    (Mortality.on_time_step step_size m bm pop).bau_acmr = bm ∧
    (Mortality.on_time_step step_size m bm pop).bau_pr_death = 1 - Real.exp (-bm) ∧
    (Mortality.on_time_step step_size m bm pop).bau_deaths
      = pop.bau_population * (1 - Real.exp (-bm)) ∧
    (Mortality.on_time_step step_size m bm pop).bau_population
      = pop.bau_population * Real.exp (-bm) ∧
    (Mortality.on_time_step step_size m bm pop).bau_person_years
      = ((Mortality.on_time_step step_size m bm pop).bau_population
          + 0.5 * (Mortality.on_time_step step_size m bm pop).bau_deaths)
        * (step_size / 365) := by
  refine ⟨rfl, rfl, rfl, ?_, rfl, rfl, rfl, rfl, ?_, rfl⟩
  · show pop.population * (1 - (1 - Real.exp (-m))) = pop.population * Real.exp (-m)
    ring
  · show pop.bau_population * (1 - (1 - Real.exp (-bm)))
      = pop.bau_population * Real.exp (-bm)
    ring

lemma mortality_adjustment_id (ch : ChronicState) (h : ch.tracksEqual) (m : ℝ) :
    Disease.mortality_adjustment ch m = m := by
  obtain ⟨h1, h2, h3, h4⟩ := h
  simp only [Disease.mortality_adjustment]
  rw [h1, h2, h3, h4, log_div_self, add_zero]

lemma disability_adjustment_id (dis : ℝ) (ch : ChronicState) (h : ch.tracksEqual)
    (y : ℝ) : Disease.disability_adjustment dis ch y = y := by
  obtain ⟨h1, h2, h3, h4⟩ := h
  simp only [Disease.disability_adjustment]
  rw [h1, h2, h3, h4, sub_self, mul_zero, add_zero]

lemma prepare_tracksEqual (cy sy : ℤ) (simplified : Bool) (i_bau i_int r f : ℝ)
    (st : ChronicState) (h : st.tracksEqual) (hi : i_int = i_bau) :
    (Disease.on_time_step_prepare cy sy simplified i_bau i_int r f st).tracksEqual := by
  obtain ⟨h1, h2, h3, h4⟩ := h
  rw [Disease.on_time_step_prepare]
  split
  · exact ⟨h1, h2, h3, h4⟩
  · split
    · simp only [ChronicState.tracksEqual]
      exact ⟨by rw [h1, h2, hi], by rw [h1, h2, hi], h1, h2⟩
    · simp only [ChronicState.tracksEqual]
      exact ⟨by rw [h1, h2, hi], by rw [h1, h2, hi], h1, h2⟩

lemma mortality_step_sym (step m : ℝ) (pop : MortalityState)
    (hpop : pop.population = pop.bau_population) :
    (Mortality.on_time_step step m m pop).population
      = (Mortality.on_time_step step m m pop).bau_population ∧
    (Mortality.on_time_step step m m pop).acmr
      = (Mortality.on_time_step step m m pop).bau_acmr ∧
    (Mortality.on_time_step step m m pop).pr_death
      = (Mortality.on_time_step step m m pop).bau_pr_death ∧
    (Mortality.on_time_step step m m pop).deaths
      = (Mortality.on_time_step step m m pop).bau_deaths ∧
    (Mortality.on_time_step step m m pop).person_years
      = (Mortality.on_time_step step m m pop).bau_person_years := by
  refine ⟨?_, rfl, rfl, ?_, ?_⟩
  · show pop.population * (1 - (1 - Real.exp (-m)))
      = pop.bau_population * (1 - (1 - Real.exp (-m)))
    rw [hpop]
  · show pop.population * (1 - Real.exp (-m))
      = pop.bau_population * (1 - Real.exp (-m))
    rw [hpop]
  · show (pop.population * (1 - (1 - Real.exp (-m)))
        + 0.5 * (pop.population * (1 - Real.exp (-m)))) * (step / 365)
      = (pop.bau_population * (1 - (1 - Real.exp (-m)))
        + 0.5 * (pop.bau_population * (1 - Real.exp (-m)))) * (step / 365)
    rw [hpop]

lemma simStep_tracksEqual (sy : ℤ) (simplified : Bool) (step : ℝ)
    (st : SimState) (inp : StepInput) (h : st.tracksEqual)
    (hni : inp.noIntervention) : (simStep sy simplified step st inp).tracksEqual := by
  obtain ⟨hpop, hacmr, hprd, hdth, hpy, hyld, hhaly, hch⟩ := h
  obtain ⟨hi, ham, hay⟩ := hni
  have hch2 := prepare_tracksEqual inp.clockYear sy simplified inp.i_bau inp.i_int
    inp.r inp.f st.chronic hch hi
  have hrate : Disease.mortality_adjustment
        (Disease.on_time_step_prepare inp.clockYear sy simplified inp.i_bau inp.i_int
          inp.r inp.f st.chronic) inp.acmr_base
      + (inp.acute_mty_int - inp.acute_mty_bau) = inp.acmr_base := by
    rw [mortality_adjustment_id _ hch2, ham]; ring
  have hyrate : Disease.disability_adjustment inp.dis
        (Disease.on_time_step_prepare inp.clockYear sy simplified inp.i_bau inp.i_int
          inp.r inp.f st.chronic) inp.yld_base
      + (inp.acute_yld_int - inp.acute_yld_bau) = inp.yld_base := by
    rw [disability_adjustment_id inp.dis _ hch2, hay]; ring
  simp only [simStep, SimState.tracksEqual]
  rw [hrate, hyrate]
  obtain ⟨p1, p2, p3, p4, p5⟩ := mortality_step_sym step inp.acmr_base st.mort hpop
  exact ⟨p1, p2, p3, p4, p5, rfl, by rw [p5], hch2⟩

/-- C5: if no intervention modifier changes anything (a chronic and an acute
disease component are present, but every intervention-track lookup value
equals its BAU-track value at every step), then for every time step the
`mortality_rate` and `yld_rate` pipeline outputs equal the
`bau_mortality_rate` and `bau_yld_rate` outputs exactly, and the non-prefixed
population, deaths, person-years and HALY columns equal their `bau_`-prefixed
counterparts. -/
theorem bau_only_run_tracksEqual (sy : ℤ) (simplified : Bool) (step : ℝ)
    (st : SimState) (inputs : List StepInput) (h : st.tracksEqual)
    (hni : ∀ inp ∈ inputs, inp.noIntervention) :
    (simRun sy simplified step st inputs).tracksEqual := by
  induction inputs generalizing st with
  | nil => exact h
  | cons a l ih =>
      rw [simRun, List.foldl_cons]
      exact ih (simStep sy simplified step st a)
        (simStep_tracksEqual sy simplified step st a h (hni a (List.mem_cons_self a l)))
        (fun inp hm => hni inp (List.mem_cons_of_mem a hm))

/-- Witness for C5: a one-step run with equal-track initial state and
identical BAU/intervention lookup values keeps every column equal to its
`bau_` counterpart. -/
theorem bau_only_run_tracksEqual_witness :
    (simRun 2021 false 30
      ⟨⟨1, 1, 0, 0, 0, 0, 0, 0, 0, 0⟩, 0, 0, 0, 0, ⟨950, 50, 950, 50, 950, 50, 950, 50⟩⟩
      [⟨2022, 1/10, 1/20, 1/50, 1/50, 1/100, 3/100, 1/5, 1/250, 1/250, 1/500, 1/500⟩]).tracksEqual :=
  bau_only_run_tracksEqual 2021 false 30
    ⟨⟨1, 1, 0, 0, 0, 0, 0, 0, 0, 0⟩, 0, 0, 0, 0, ⟨950, 50, 950, 50, 950, 50, 950, 50⟩⟩
    [⟨2022, 1/10, 1/20, 1/50, 1/50, 1/100, 3/100, 1/5, 1/250, 1/250, 1/500, 1/500⟩]
    (by exact ⟨rfl, rfl, rfl, rfl, rfl, rfl, rfl, rfl, rfl, rfl, rfl⟩)
    (by
      intro inp hm
      rw [List.mem_singleton] at hm
      subst hm
      exact ⟨rfl, rfl, rfl⟩)

/-- C6 (counterexample): a tracked cohort whose age, after the
`years_per_timestep` increment, equals `max_age` exactly (age `109`, step
`1` year, `max_age = 110`) keeps `tracked = true` — the code clears the flag
only where `age > max_age` holds strictly (population.py line 95), so the
claimed `true → false` transition does not happen at equality. -/
theorem max_age_boundary_stays_tracked :
    (BasePopulation.on_time_step_prepare 110 1 true ⟨109, true⟩).age = 110 ∧
    (BasePopulation.on_time_step_prepare 110 1 true ⟨109, true⟩).tracked = true := by
  norm_num [BasePopulation.on_time_step_prepare]

/-- C6 (amended): a tracked cohort's age advances by `years_per_timestep`
(once past the first time step), and the `tracked` flag transitions
`true → false` on that same `time_step__prepare` if and only if the new age
strictly exceeds `max_age` (a cohort exactly at `max_age` remains tracked);
an untracked cohort is excluded from the update (the view is queried with
`tracked == True`) and is left unchanged, so the transition is terminal. -/
theorem tracked_transition (max_age y : ℝ) (past_start : Bool) (c : PopCohort) :
    (c.tracked = false →
      BasePopulation.on_time_step_prepare max_age y past_start c = c) ∧
    (c.tracked = true →
      (BasePopulation.on_time_step_prepare max_age y past_start c).age
        = (if past_start then c.age + y else c.age) ∧
      ((BasePopulation.on_time_step_prepare max_age y past_start c).tracked = false
        ↔ max_age < (if past_start then c.age + y else c.age))) := by
  constructor
  · intro h
    rw [BasePopulation.on_time_step_prepare,
      if_neg (by rw [h]; exact Bool.false_ne_true)]
  · intro h
    rw [BasePopulation.on_time_step_prepare, if_pos h]
    refine ⟨rfl, ?_⟩
    show (if max_age < (if past_start then c.age + y else c.age) then false else true)
        = false ↔ max_age < (if past_start then c.age + y else c.age)
    by_cases hlt : max_age < (if past_start then c.age + y else c.age) <;> simp [hlt]

/-- Witness for C6 (amended): a cohort at age `109.5` with a one-year step
ends at `110.5 > 110` and is untracked. -/
theorem tracked_transition_witness :
    (BasePopulation.on_time_step_prepare 110 1 true ⟨219/2, true⟩).tracked = false :=
  ((tracked_transition 110 1 true ⟨219/2, true⟩).2 rfl).2.mpr (by norm_num)

/-- C7 (code bug): with the repo's lockdown configuration restricted to
`{anxiety: 1.88, selfharm: 1.48}` and stage severity `σ = 1`, the modifier
registered for anxiety's intervention excess-mortality pipeline multiplies
the rate by `1.48` — the scale of the *last* configured disease — instead of
anxiety's own `1.88` demanded by the claim (the registered lambdas late-bind
the loop variable `disease`, stage.py lines 38-44). -/
theorem lockdown_modifier_uses_last_scale :
    lockdownMortModifier [("anxiety", 188/100), ("selfharm", 148/100)] 1 1
      = 148/100 ∧
    lockdownSpecModifier [("anxiety", 188/100), ("selfharm", 148/100)]
      ("anxiety") 1 1 = 188/100 ∧
    (148/100 : ℝ) ≠ 188/100 := by
  have hlast : lastKey [("anxiety", (188/100 : ℝ)), ("selfharm", 148/100)]
      = "selfharm" := rfl
  refine ⟨?_, ?_, by norm_num⟩
  · unfold lockdownMortModifier
    rw [hlast]
    have h2 : dictGet [("anxiety", (188/100 : ℝ)), ("selfharm", 148/100)]
        ("selfharm") = 148/100 := by
      simp [dictGet]
    rw [h2]; norm_num
  · unfold lockdownSpecModifier
    have h3 : dictGet [("anxiety", (188/100 : ℝ)), ("selfharm", 148/100)]
        ("anxiety") = 188/100 := by
      simp [dictGet]
    rw [h3]; norm_num

/-- C8 (counterexample): the chronic-disease `time_step__prepare` handler
skips the update whenever the clock *year* equals the start year, not only on
the first time step.  With the repo's configuration (start 2021-01-15, step
30.4166667 days) the second time step still has clock year 2021 and the
compartments are left untouched, although an update at those rates would
change them (shown here: at clock year 2022 the same state is mutated). -/
theorem prepare_start_year_counterexample :
    Disease.on_time_step_prepare 2021 2021 false 1 1 0 0
        ⟨1000, 0, 900, 100, 1000, 0, 900, 100⟩
      = ⟨1000, 0, 900, 100, 1000, 0, 900, 100⟩ ∧
    Disease.on_time_step_prepare 2022 2021 false 1 1 0 0
        ⟨1000, 0, 900, 100, 1000, 0, 900, 100⟩
      ≠ ⟨1000, 0, 900, 100, 1000, 0, 900, 100⟩ := by
  constructor
  · rw [Disease.on_time_step_prepare, if_pos rfl]
  · intro h
    have h2 := congrArg ChronicState.S_previous h
    rw [Disease.on_time_step_prepare, if_neg (by decide),
      if_neg (by simp)] at h2
    norm_num at h2

/-- C8 (amended): the chronic-disease compartment columns are left unchanged
by the `time_step__prepare` handler on every time step whose clock year
equals the simulation start year (with the repo's monthly step, the whole
first calendar year, not only the first step), and on every other time step
they are written exactly once: the previous-step columns receive the incoming
current values and the current columns receive the one-step solver output
(fast path or general closed form according to the configuration). -/
theorem prepare_start_year_frame (cy sy : ℤ) (simplified : Bool)
    (i_bau i_int r f : ℝ) (st : ChronicState) :
    (cy = sy →
      Disease.on_time_step_prepare cy sy simplified i_bau i_int r f st = st) ∧
    (cy ≠ sy →
      (Disease.on_time_step_prepare cy sy simplified i_bau i_int r f st).S_previous
        = st.S ∧
      (Disease.on_time_step_prepare cy sy simplified i_bau i_int r f st).C_previous
        = st.C ∧
      (Disease.on_time_step_prepare cy sy simplified i_bau i_int r f
        st).S_intervention_previous = st.S_intervention ∧
      (Disease.on_time_step_prepare cy sy simplified i_bau i_int r f
        st).C_intervention_previous = st.C_intervention ∧
      ((r = 0 ∧ simplified = true) →
        ((Disease.on_time_step_prepare cy sy simplified i_bau i_int r f st).S,
         (Disease.on_time_step_prepare cy sy simplified i_bau i_int r f st).C)
          = fastStep st.S st.C i_bau f ∧
        ((Disease.on_time_step_prepare cy sy simplified i_bau i_int r f
            st).S_intervention,
         (Disease.on_time_step_prepare cy sy simplified i_bau i_int r f
            st).C_intervention)
          = fastStep st.S_intervention st.C_intervention i_int f) ∧
      (¬(r = 0 ∧ simplified = true) →
        ((Disease.on_time_step_prepare cy sy simplified i_bau i_int r f st).S,
         (Disease.on_time_step_prepare cy sy simplified i_bau i_int r f st).C)
          = diseaseStep st.S st.C i_bau r f ∧
        ((Disease.on_time_step_prepare cy sy simplified i_bau i_int r f
            st).S_intervention,
         (Disease.on_time_step_prepare cy sy simplified i_bau i_int r f
            st).C_intervention)
          = diseaseStep st.S_intervention st.C_intervention i_int r f)) := by
  constructor
  · intro h
    rw [Disease.on_time_step_prepare, if_pos h]
  · intro h
    rw [Disease.on_time_step_prepare, if_neg h]
    by_cases hb : r = 0 ∧ simplified = true
    · rw [if_pos hb]
      exact ⟨rfl, rfl, rfl, rfl, fun _ => ⟨rfl, rfl⟩, fun hn => absurd hb hn⟩
    · rw [if_neg hb]
      exact ⟨rfl, rfl, rfl, rfl, fun hy => absurd hy hb, fun _ => ⟨rfl, rfl⟩⟩

/-- Witness for C8 (amended): at clock year `2021 = start year` the state is
returned unchanged; at clock year `2022 ≠ 2021` the previous-step column is
overwritten with the incoming current value. -/
theorem prepare_start_year_frame_witness :
    Disease.on_time_step_prepare 2021 2021 false 1 1 0 0
        ⟨1000, 0, 900, 100, 1000, 0, 900, 100⟩
      = ⟨1000, 0, 900, 100, 1000, 0, 900, 100⟩ ∧
    (Disease.on_time_step_prepare 2022 2021 false 1 1 0 0
        ⟨1000, 0, 900, 100, 1000, 0, 900, 100⟩).S_previous = 1000 :=
  ⟨(prepare_start_year_frame 2021 2021 false 1 1 0 0 _).1 rfl,
   ((prepare_start_year_frame 2022 2021 false 1 1 0 0 _).2 (by decide)).1⟩

/-- C9: setup of the acute-disease mortality and disability scalers fails if
and only if the configured scale factor is negative (in which case the
exception is raised before any value modifier is registered, so none is),
and for every non-negative scale setup succeeds and registers the modifier
that multiplies the rate by exactly that scale. -/
theorem scale_setup_validation (s : ℝ) :
    ((∃ e, ModifyAcuteDiseaseYLD.setup s = Except.error e) ↔ s < 0) ∧
    ((∃ e, ModifyAcuteDiseaseMortality.setup s = Except.error e) ↔ s < 0) ∧
    (0 ≤ s →
      ModifyAcuteDiseaseYLD.setup s = Except.ok (fun rates => rates * s) ∧
      ModifyAcuteDiseaseMortality.setup s = Except.ok (fun rates => rates * s)) := by
  by_cases h : s < 0
  · refine ⟨⟨fun _ => h, fun _ => ⟨"Invalid YLD scale", ?_⟩⟩,
      ⟨fun _ => h, fun _ => ⟨"Invalid mortality scale", ?_⟩⟩,
      fun h0 => absurd h (not_lt.mpr h0)⟩
    · rw [ModifyAcuteDiseaseYLD.setup, if_pos h]
    · rw [ModifyAcuteDiseaseMortality.setup, if_pos h]
  · refine ⟨⟨?_, fun hs => absurd hs h⟩, ⟨?_, fun hs => absurd hs h⟩,
      fun _ => ⟨?_, ?_⟩⟩
    · rintro ⟨e, he⟩
      rw [ModifyAcuteDiseaseYLD.setup, if_neg h] at he
      simp at he
    · rintro ⟨e, he⟩
      rw [ModifyAcuteDiseaseMortality.setup, if_neg h] at he
      simp at he
    · rw [ModifyAcuteDiseaseYLD.setup, if_neg h]
    · rw [ModifyAcuteDiseaseMortality.setup, if_neg h]

/-- Witness for C9 at the non-negative scale `2`: both setups succeed and
register the doubling modifier. -/
theorem scale_setup_validation_witness :
    ModifyAcuteDiseaseYLD.setup 2 = Except.ok (fun rates => rates * 2) ∧
    ModifyAcuteDiseaseMortality.setup 2 = Except.ok (fun rates => rates * 2) :=
  (scale_setup_validation 2).2.2 (by norm_num)

end MSLT
